/-
Verification of the MPU preparation backend (src/main.py, src/schemas.py).

Shallow embedding notes:
* Python strings are modelled as Lean `String` / `List Char`; `str.lower()` is
  modelled with `Char.toLower` (ASCII case mapping — every keyword and every
  concrete input analysed here is decided by ASCII letters only, the umlauts in
  the keyword lists are already lower case); `str.strip()` drops the ASCII
  whitespace characters at both ends; `k in s` is contiguous-substring
  containment (`pyContains`).
* Python float arithmetic is modelled by exact rational arithmetic over `ℚ`
  with the literals 0.2, 0.15, 0.1, 0.4, 0.6, 0.8 read as the exact decimal
  fractions they denote; `round(x, 1)` is modelled as round-half-to-even at one
  decimal digit, Python's documented rounding rule.
* The persistence gateway (`create_document` / `get_documents` from
  database.py, an external collaborator per the spec) is modelled by passing
  its outcome as an explicit `Except Unit _` argument to each handler:
  `.error ()` models the call raising, `.ok v` models success.  Each handler
  additionally returns the list of records it attempted to persist, so that
  "no store call happens" is expressible as an empty trace.
* `HTTPException(status_code=400)` is modelled as `Except.error 400`.
-/
import Mathlib

namespace Mpu

/-! ### Python string primitives -/

/-- ASCII whitespace characters removed by Python's `str.strip()`. -/
def isPySpace (c : Char) : Bool :=
  c = ' ' || c = '\t' || c = '\n' || c = '\r' || c = '\x0b' || c = '\x0c'

/-- `str.strip()` on a character list. -/
def pyStripChars (l : List Char) : List Char :=
  ((l.dropWhile isPySpace).reverse.dropWhile isPySpace).reverse

/-- `str.strip()`. -/
def pyStrip (s : String) : String :=
  ⟨pyStripChars s.data⟩

/-- `text.lower()` as used on line 64 of main.py (ASCII case mapping). -/
def pyLower (s : String) : List Char :=
  s.data.map Char.toLower

/-- Python's `needle in hay` for strings: contiguous substring containment. -/
def pyContains (needle : List Char) : List Char → Bool
  | [] => needle.isEmpty
  | c :: t => needle.isPrefixOf (c :: t) || pyContains needle t

/-- `k in lowered` for a keyword `k`. -/
def kwIn (k : String) (lowered : List Char) : Bool :=
  pyContains k.data lowered

/-- `pyContains` decides the `List.IsInfix` relation. -/
theorem pyContains_substring_iff (needle hay : List Char) :
    pyContains needle hay = true ↔ needle <:+: hay := by
  induction hay with
  | nil =>
    simp [pyContains, List.isEmpty_iff]
  | cons c t ih =>
    simp only [pyContains, Bool.or_eq_true, List.isPrefixOf_iff_prefix, ih,
      List.infix_cons_iff]

/-! ### Fixed keyword tables (main.py lines 65-66) -/

def negative_keywords : List String :=
  ["angst", "sorge", "problem", "rückfall", "unsicher", "stress", "alkohol", "drogen"]

def positive_keywords : List String :=
  ["vorbereitet", "bereit", "besser", "verändert", "therapie", "kontrolle", "motivation"]

/-- `sum(k in lowered for k in negative_keywords)` (line 68). -/
def neg_hits (lowered : List Char) : Nat :=
  negative_keywords.countP (fun k => kwIn k lowered)

/-- `sum(k in lowered for k in positive_keywords)` (line 69). -/
def pos_hits (lowered : List Char) : Nat :=
  positive_keywords.countP (fun k => kwIn k lowered)

/-- Sentiment selection (lines 71-75). -/
def sentiment_of (negN posN : Nat) : String :=
  if posN > negN ∧ posN > 0 then "positive"
  else if negN > posN ∧ negN > 0 then "negative"
  else "neutral"

/-- `min(1.0, max(0.0, 0.2 + 0.15 * neg_hits - 0.1 * pos_hits))` (line 77). -/
def risk_score_of (negN posN : Nat) : ℚ :=
  min 1 (max 0 (2/10 + 15/100 * (negN : ℚ) - 1/10 * (posN : ℚ)))

/-- `[k for k in (negative_keywords + positive_keywords) if k in lowered][:6]` (line 79). -/
def key_themes_of (lowered : List Char) : List String :=
  ((negative_keywords ++ positive_keywords).filter (fun k => kwIn k lowered)).take 6

/-! ### Recommendation strings (lines 81-91) -/

def rec_counselling : String :=
  "Empfohlen: zusätzliche Beratungsgespräche und Selbstreflexion zu Risikosituationen"

def rec_abstinence : String :=
  "Dokumentiere Abstinenznachweise und Teilnahme an Programmen"

def rec_examples : String :=
  "Erarbeite klare Beispiele für Verhaltensänderungen"

def rec_therapy : String :=
  "Heb hervor, welche konkreten Fortschritte du in der Therapie gemacht hast"

def rec_default : String :=
  "Weiter so: strukturiert deine Argumentation mit Ich-Botschaften und konkreten Beispielen"

/-- Sequential appends of lines 81-91: each condition contributes its canned
string in the fixed order, with the default string when none triggered. -/
def recommendations_of (risk : ℚ) (lowered : List Char) (posN : Nat) : List String :=
  let recs : List String :=
    (if 6/10 ≤ risk then [rec_counselling] else []) ++
    (if kwIn "alkohol" lowered || kwIn "drogen" lowered then [rec_abstinence] else []) ++
    (if posN = 0 then [rec_examples] else []) ++
    (if kwIn "therapie" lowered then [rec_therapy] else [])
  if recs.isEmpty then [rec_default] else recs

/-! ### Record shapes (schemas.py) and request/response shapes (main.py) -/

structure AnalysisInput where
  text : String
  user_id : Option String
deriving DecidableEq, Repr

structure AnalysisReport where
  user_id : Option String
  input_text : String
  sentiment : String
  risk_score : ℚ
  key_themes : List String
  recommendations : List String
deriving DecidableEq, Repr

structure AnalyzeResponse where
  sentiment : String
  risk_score : ℚ
  key_themes : List String
  recommendations : List String
  id : Option String
deriving DecidableEq, Repr

/-- `POST /api/analyze` (lines 57-113).  `createResult` is the outcome of the
`create_document` call (`.error ()` = it raised); the second component is the
trace of reports passed to `create_document`. -/
def analyze_text (createResult : Except Unit String) (payload : AnalysisInput) :
    Except Nat AnalyzeResponse × List AnalysisReport :=
  let text := pyStrip payload.text
  if text = "" then (.error 400, [])
  else
    let lowered := pyLower text
    let negN := neg_hits lowered
    let posN := pos_hits lowered
    let sentiment := sentiment_of negN posN
    let risk_score := risk_score_of negN posN
    let key_themes := key_themes_of lowered
    let recs := recommendations_of risk_score lowered posN
    let report : AnalysisReport :=
      ⟨payload.user_id, text, sentiment, risk_score, key_themes, recs⟩
    let doc_id := createResult.toOption
    (.ok ⟨sentiment, risk_score, key_themes, recs, doc_id⟩, [report])

/-! ### Session scorer (main.py lines 134-169) -/

/-- A submitted answer: a loosely-typed dict of which only the optional
`"text"` key is ever read (`none` models both an absent key and `None`). -/
structure Answer where
  text : Option String
deriving DecidableEq, Repr

/-- `a.get("text", "")`. -/
def answerText (a : Answer) : String :=
  a.text.getD ""

/-- Python truthiness of `a.get("text")`: `None` and `""` are falsy. -/
def answerTruthy (a : Answer) : Bool :=
  answerText a != ""

/-- `sum(1 for a in answers if a.get("text")) / max(1, len(answers))` (line 142). -/
def completeness_of (answers : List Answer) : ℚ :=
  (answers.countP answerTruthy : ℚ) / ((max 1 answers.length : Nat) : ℚ)

/-- `sum(min(1.0, len(a.get("text", "")) / 120) for a in answers) / max(1, len(answers))`
(line 143). -/
def depth_of (answers : List Answer) : ℚ :=
  (answers.map (fun a => min 1 (((answerText a).length : ℚ) / 120))).sum /
    ((max 1 answers.length : Nat) : ℚ)

/-- Round-half-to-even to an integer, Python's rounding rule for `round`. -/
def roundHalfToEven (q : ℚ) : ℤ :=
  if q - (⌊q⌋ : ℚ) < 1/2 then ⌊q⌋
  else if 1/2 < q - (⌊q⌋ : ℚ) then ⌊q⌋ + 1
  else if ⌊q⌋ % 2 = 0 then ⌊q⌋ else ⌊q⌋ + 1

/-- `round(100 * (0.4 * completeness + 0.6 * depth), 1)` (line 144). -/
def score_of (answers : List Answer) : ℚ :=
  ((roundHalfToEven (100 * (4/10 * completeness_of answers + 6/10 * depth_of answers)
    * 10) : ℤ) : ℚ) / 10

def fb_complete : String := "Beantworte alle Fragen vollständig."

def fb_depth : String := "Geh tiefer auf Einsichten, Auslöser und Strategien ein."

def fb_good : String := "Sehr gut strukturiert – weiter so!"

/-- Feedback assembly, `" ".join(feedback_parts)` (lines 146-154). -/
def feedback_of (answers : List Answer) : String :=
  let parts : List String :=
    (if completeness_of answers < 8/10 then [fb_complete] else []) ++
    (if depth_of answers < 6/10 then [fb_depth] else [])
  let parts := if parts.isEmpty then [fb_good] else parts
  String.intercalate " " parts

structure SubmitSessionInput where
  session_id : Option String
  user_id : String
  answers : List Answer
deriving DecidableEq, Repr

structure TrainingSession where
  user_id : String
  status : String
  questions : List String
  answers : Option (List Answer)
  score : Option ℚ
  feedback : Option String
deriving DecidableEq, Repr

structure SubmitResponse where
  score : ℚ
  feedback : String
  id : Option String
deriving DecidableEq, Repr

/-- `POST /api/session/submit` (lines 139-169). -/
def submit_session (createResult : Except Unit String) (payload : SubmitSessionInput) :
    SubmitResponse × List TrainingSession :=
  let answers := payload.answers
  let score := score_of answers
  let feedback := feedback_of answers
  let result : TrainingSession :=
    ⟨payload.user_id, "submitted", [], some answers, some score, some feedback⟩
  let res_id := createResult.toOption
  (⟨score, feedback, res_id⟩, [result])

/-! ### Checklist endpoints (main.py lines 172-205) -/

/-- A checklist document as a Python dict: every key may be absent (`none`). -/
structure ChecklistDoc where
  _id : Option String
  id : Option String
  user_id : Option String
  title : Option String
  completed : Option Bool
deriving DecidableEq, Repr

/-- The per-item conversion of lines 180-184: when `_id` is present, copy it
to `id` (as its string form, modelled as the identifier itself) and delete it. -/
def convertDoc (it : ChecklistDoc) : ChecklistDoc :=
  match it._id with
  | some v => { it with id := some v, _id := none }
  | none => it

/-- The fallback demo list of lines 188-192. -/
def demo_checklist : List ChecklistDoc :=
  [⟨none, some "1", none, some "Führungszeugnis prüfen", some false⟩,
   ⟨none, some "2", none, some "Abstinenznachweise sammeln", some false⟩,
   ⟨none, some "3", none, some "Probeinterview durchführen", some false⟩]

/-- `GET /api/checklist` (lines 175-192).  `fetchResult` is the outcome of
`get_documents("checklistitem", {"user_id": user_id}, limit=100)`
(`.error ()` = it raised). -/
def get_checklist (fetchResult : Except Unit (List ChecklistDoc)) : List ChecklistDoc :=
  match fetchResult with
  | .ok items => items.map convertDoc
  | .error _ => demo_checklist

structure ChecklistCreate where
  user_id : String
  title : String
deriving DecidableEq, Repr

structure ChecklistItem where
  user_id : String
  title : String
  completed : Bool
deriving DecidableEq, Repr

structure ChecklistCreateResponse where
  id : Option String
  title : String
  completed : Bool
deriving DecidableEq, Repr

/-- `POST /api/checklist` (lines 198-205); the second component is the trace
of items passed to `create_document`. -/
def add_checklist_item (createResult : Except Unit String) (payload : ChecklistCreate) :
    ChecklistCreateResponse × List ChecklistItem :=
  let item : ChecklistItem := ⟨payload.user_id, payload.title, false⟩
  let item_id := createResult.toOption
  (⟨item_id, item.title, item.completed⟩, [item])

/-! ### Helper lemmas -/

/-- Successful-validation spine of `analyze_text`: with non-empty stripped
text the handler returns the computed response and persists one report. -/
theorem analyze_text_ok (cr : Except Unit String) (payload : AnalysisInput)
    (h : pyStrip payload.text ≠ "") :
    analyze_text cr payload =
      (.ok ⟨sentiment_of (neg_hits (pyLower (pyStrip payload.text)))
              (pos_hits (pyLower (pyStrip payload.text))),
            risk_score_of (neg_hits (pyLower (pyStrip payload.text)))
              (pos_hits (pyLower (pyStrip payload.text))),
            key_themes_of (pyLower (pyStrip payload.text)),
            recommendations_of
              (risk_score_of (neg_hits (pyLower (pyStrip payload.text)))
                (pos_hits (pyLower (pyStrip payload.text))))
              (pyLower (pyStrip payload.text))
              (pos_hits (pyLower (pyStrip payload.text))),
            cr.toOption⟩,
       [⟨payload.user_id, pyStrip payload.text,
         sentiment_of (neg_hits (pyLower (pyStrip payload.text)))
           (pos_hits (pyLower (pyStrip payload.text))),
         risk_score_of (neg_hits (pyLower (pyStrip payload.text)))
           (pos_hits (pyLower (pyStrip payload.text))),
         key_themes_of (pyLower (pyStrip payload.text)),
         recommendations_of
           (risk_score_of (neg_hits (pyLower (pyStrip payload.text)))
             (pos_hits (pyLower (pyStrip payload.text))))
           (pyLower (pyStrip payload.text))
           (pos_hits (pyLower (pyStrip payload.text)))⟩]) := by
  simp only [analyze_text]
  rw [if_neg h]

/-- Failed-validation spine of `analyze_text`. -/
theorem analyze_text_err (cr : Except Unit String) (payload : AnalysisInput)
    (h : pyStrip payload.text = "") :
    analyze_text cr payload = (.error 400, ([] : List AnalysisReport)) := by
  simp only [analyze_text]
  rw [if_pos h]

/-- Complete case analysis of the sentiment selection. -/
theorem sentiment_of_spec (n p : Nat) :
    (sentiment_of n p = "positive" ↔ p > n ∧ p > 0) ∧
    (sentiment_of n p = "negative" ↔ n > p ∧ n > 0) ∧
    (sentiment_of n p = "neutral" ↔ p = n) := by
  have e1 : ("positive" : String) ≠ "negative" := by decide
  have e2 : ("positive" : String) ≠ "neutral" := by decide
  have e3 : ("negative" : String) ≠ "positive" := by decide
  have e4 : ("negative" : String) ≠ "neutral" := by decide
  have e5 : ("neutral" : String) ≠ "positive" := by decide
  have e6 : ("neutral" : String) ≠ "negative" := by decide
  unfold sentiment_of
  rcases Nat.lt_trichotomy n p with h | h | h
  · rw [if_pos ⟨h, by omega⟩]
    exact ⟨⟨fun _ => ⟨h, by omega⟩, fun _ => rfl⟩,
           ⟨fun hs => absurd hs e1, fun hc => by omega⟩,
           ⟨fun hs => absurd hs e2, fun hc => by omega⟩⟩
  · subst h
    rw [if_neg (by omega), if_neg (by omega)]
    exact ⟨⟨fun hs => absurd hs e5, fun hc => by omega⟩,
           ⟨fun hs => absurd hs e6, fun hc => by omega⟩,
           ⟨fun _ => rfl, fun _ => rfl⟩⟩
  · rw [if_neg (by omega), if_pos ⟨h, by omega⟩]
    exact ⟨⟨fun hs => absurd hs e3, fun hc => by omega⟩,
           ⟨fun _ => ⟨h, by omega⟩, fun _ => rfl⟩,
           ⟨fun hs => absurd hs e4, fun hc => by omega⟩⟩

theorem risk_score_of_nonneg (n p : Nat) : 0 ≤ risk_score_of n p :=
  le_min zero_le_one (le_max_left 0 _)

theorem risk_score_of_le_one (n p : Nat) : risk_score_of n p ≤ 1 :=
  min_le_left 1 _

/-! ### Claim theorems -/

/-- C1: for every input text that is non-empty after trimming whitespace,
`analyze` returns `risk_score = min(1, max(0, 0.2 + 0.15*neg_hits - 0.1*pos_hits))`
with `neg_hits`/`pos_hits` the binary-presence counts of the fixed keyword
lists over the lower-cased text, and hence `risk_score ∈ [0,1]`. -/
theorem analyze_risk_score_spec (cr : Except Unit String) (payload : AnalysisInput)
    (h : pyStrip payload.text ≠ "") :
    ∃ r : AnalyzeResponse, (analyze_text cr payload).1 = .ok r ∧
      r.risk_score = min 1 (max 0 (2/10
        + 15/100 * (neg_hits (pyLower (pyStrip payload.text)) : ℚ)
        - 1/10 * (pos_hits (pyLower (pyStrip payload.text)) : ℚ))) ∧
      0 ≤ r.risk_score ∧ r.risk_score ≤ 1 := by
  rw [analyze_text_ok cr payload h]
  exact ⟨_, rfl, rfl, risk_score_of_nonneg _ _, risk_score_of_le_one _ _⟩

/-- C1, concrete witness at text `"hallo"`. -/
theorem analyze_risk_score_spec_witness :
    pyStrip "hallo" ≠ "" ∧
    ∃ r : AnalyzeResponse,
      (analyze_text (.ok "id1") ⟨"hallo", none⟩).1 = .ok r ∧
      r.risk_score = min 1 (max 0 (2/10
        + 15/100 * (neg_hits (pyLower (pyStrip "hallo")) : ℚ)
        - 1/10 * (pos_hits (pyLower (pyStrip "hallo")) : ℚ))) ∧
      0 ≤ r.risk_score ∧ r.risk_score ≤ 1 :=
  ⟨by decide, analyze_risk_score_spec (.ok "id1") ⟨"hallo", none⟩ (by decide)⟩

/-- C2: for every non-empty analyzed text, sentiment is `"positive"` exactly
when `pos_hits > neg_hits ∧ pos_hits > 0`, `"negative"` exactly when
`neg_hits > pos_hits ∧ neg_hits > 0`, and `"neutral"` exactly on ties
(including the zero and positive ties). -/
theorem analyze_sentiment_spec (cr : Except Unit String) (payload : AnalysisInput)
    (h : pyStrip payload.text ≠ "") :
    ∃ r : AnalyzeResponse, (analyze_text cr payload).1 = .ok r ∧
      (r.sentiment = "positive" ↔
        pos_hits (pyLower (pyStrip payload.text)) > neg_hits (pyLower (pyStrip payload.text)) ∧
        pos_hits (pyLower (pyStrip payload.text)) > 0) ∧
      (r.sentiment = "negative" ↔
        neg_hits (pyLower (pyStrip payload.text)) > pos_hits (pyLower (pyStrip payload.text)) ∧
        neg_hits (pyLower (pyStrip payload.text)) > 0) ∧
      (r.sentiment = "neutral" ↔
        pos_hits (pyLower (pyStrip payload.text)) = neg_hits (pyLower (pyStrip payload.text))) := by
  rw [analyze_text_ok cr payload h]
  exact ⟨_, rfl, sentiment_of_spec _ _⟩

/-- C2, concrete witness at text `"hallo"` (zero hits on both sides). -/
theorem analyze_sentiment_spec_witness :
    pyStrip "hallo" ≠ "" ∧
    ∃ r : AnalyzeResponse,
      (analyze_text (.ok "id1") ⟨"hallo", none⟩).1 = .ok r ∧
      (r.sentiment = "positive" ↔
        pos_hits (pyLower (pyStrip "hallo")) > neg_hits (pyLower (pyStrip "hallo")) ∧
        pos_hits (pyLower (pyStrip "hallo")) > 0) ∧
      (r.sentiment = "negative" ↔
        neg_hits (pyLower (pyStrip "hallo")) > pos_hits (pyLower (pyStrip "hallo")) ∧
        neg_hits (pyLower (pyStrip "hallo")) > 0) ∧
      (r.sentiment = "neutral" ↔
        pos_hits (pyLower (pyStrip "hallo")) = neg_hits (pyLower (pyStrip "hallo"))) :=
  ⟨by decide, analyze_sentiment_spec (.ok "id1") ⟨"hallo", none⟩ (by decide)⟩

/-- C3: for every analyze request whose text is empty after trimming, the
endpoint fails with status 400, returns no computed result, and the trace of
attempted `create_document` calls is empty (nothing is persisted). -/
theorem analyze_empty_text_spec (cr : Except Unit String) (payload : AnalysisInput)
    (h : pyStrip payload.text = "") :
    analyze_text cr payload = (.error 400, ([] : List AnalysisReport)) :=
  analyze_text_err cr payload h

/-- C3, concrete witness at a whitespace-only text. -/
theorem analyze_empty_text_spec_witness :
    pyStrip "  \t\n " = "" ∧
    analyze_text (.ok "id1") ⟨"  \t\n ", none⟩ = (.error 400, ([] : List AnalysisReport)) :=
  ⟨by decide, analyze_empty_text_spec (.ok "id1") ⟨"  \t\n ", none⟩ (by decide)⟩

/-- C4: for every request passing validation, a raising `create_document` is
swallowed: `analyze` still returns its fully computed response (identical to
the successful-persistence response except that `id` is `none`), and checklist
create returns `{id := none, title, completed := false}`. -/
theorem persistence_failure_swallowed (payload : AnalysisInput)
    (h : pyStrip payload.text ≠ "") :
    (∃ r : AnalyzeResponse, (analyze_text (.error ()) payload).1 = .ok r ∧ r.id = none ∧
      ∀ s : String, (analyze_text (.ok s) payload).1 = .ok { r with id := some s }) ∧
    (∀ u t : String, (add_checklist_item (.error ()) ⟨u, t⟩).1 =
      (⟨none, t, false⟩ : ChecklistCreateResponse)) := by
  constructor
  · refine ⟨_, by rw [analyze_text_ok _ payload h], rfl, fun s => ?_⟩
    rw [analyze_text_ok (.ok s) payload h]
    rfl
  · intro u t
    rfl

/-- C4, concrete witness at text `"hallo"`. -/
theorem persistence_failure_swallowed_witness :
    pyStrip "hallo" ≠ "" ∧
    ((∃ r : AnalyzeResponse, (analyze_text (.error ()) ⟨"hallo", none⟩).1 = .ok r ∧ r.id = none ∧
      ∀ s : String, (analyze_text (.ok s) ⟨"hallo", none⟩).1 = .ok { r with id := some s }) ∧
    (∀ u t : String, (add_checklist_item (.error ()) ⟨u, t⟩).1 =
      (⟨none, t, false⟩ : ChecklistCreateResponse))) :=
  ⟨by decide, persistence_failure_swallowed ⟨"hallo", none⟩ (by decide)⟩

/-- C5: for every non-empty analyzed text, `key_themes` is the first at most 6
entries of the concatenated keyword list (8 negatives before 7 positives)
filtered by substring presence in the lower-cased text, so its length is ≤ 6
and its order is the fixed list order. -/
theorem analyze_key_themes_spec (cr : Except Unit String) (payload : AnalysisInput)
    (h : pyStrip payload.text ≠ "") :
    negative_keywords.length = 8 ∧ positive_keywords.length = 7 ∧
    ∃ r : AnalyzeResponse, (analyze_text cr payload).1 = .ok r ∧
      r.key_themes = ((negative_keywords ++ positive_keywords).filter
        (fun k => kwIn k (pyLower (pyStrip payload.text)))).take 6 ∧
      r.key_themes.length ≤ 6 := by
  refine ⟨rfl, rfl, ?_⟩
  rw [analyze_text_ok cr payload h]
  refine ⟨_, rfl, rfl, ?_⟩
  simp only [key_themes_of, List.length_take]
  omega

/-- C5, concrete witness at text `"hallo"`. -/
theorem analyze_key_themes_spec_witness :
    pyStrip "hallo" ≠ "" ∧
    (negative_keywords.length = 8 ∧ positive_keywords.length = 7 ∧
    ∃ r : AnalyzeResponse, (analyze_text (.ok "id1") ⟨"hallo", none⟩).1 = .ok r ∧
      r.key_themes = ((negative_keywords ++ positive_keywords).filter
        (fun k => kwIn k (pyLower (pyStrip "hallo")))).take 6 ∧
      r.key_themes.length ≤ 6) :=
  ⟨by decide, analyze_key_themes_spec (.ok "id1") ⟨"hallo", none⟩ (by decide)⟩

/-- C6: when `get_documents` raises, the checklist list handler returns exactly
the fixed three-item demo list (each item `completed = false`), never an error;
when it succeeds with zero items, the handler returns the empty list, not the
stub. -/
theorem get_checklist_fallback_spec :
    get_checklist (.error ()) = demo_checklist ∧
    demo_checklist.length = 3 ∧
    (∀ d ∈ demo_checklist, d.completed = some false) ∧
    get_checklist (.ok []) = [] := by
  refine ⟨rfl, rfl, ?_, rfl⟩
  decide

theorem depth_sum_bounds (answers : List Answer) :
    0 ≤ (answers.map (fun a => min 1 (((answerText a).length : ℚ) / 120))).sum ∧
    (answers.map (fun a => min 1 (((answerText a).length : ℚ) / 120))).sum ≤ answers.length := by
  induction answers with
  | nil => simp
  | cons a t ih =>
    simp only [List.map_cons, List.sum_cons, List.length_cons]
    have h0 : (0:ℚ) ≤ min 1 (((answerText a).length : ℚ) / 120) :=
      le_min (by norm_num) (by positivity)
    have h1 : min 1 (((answerText a).length : ℚ) / 120) ≤ 1 := min_le_left _ _
    constructor
    · linarith [ih.1]
    · push_cast
      linarith [ih.2]

theorem roundHalfToEven_nonneg (q : ℚ) (h : 0 ≤ q) : 0 ≤ roundHalfToEven q := by
  have hf : 0 ≤ ⌊q⌋ := Int.floor_nonneg.mpr h
  unfold roundHalfToEven
  split_ifs <;> omega

theorem roundHalfToEven_le (q : ℚ) (B : ℤ) (h : q ≤ B) : roundHalfToEven q ≤ B := by
  have hf : ⌊q⌋ ≤ B := by
    have := Int.floor_le_floor h
    rwa [Int.floor_intCast] at this
  have hfl : (⌊q⌋ : ℚ) ≤ q := Int.floor_le q
  unfold roundHalfToEven
  split_ifs with h1 h2 h3
  · exact hf
  · rcases lt_or_eq_of_le hf with hlt | he
    · omega
    · exfalso
      rw [he] at hfl
      have : q - (B : ℚ) ≤ 0 := by linarith
      rw [he] at h2
      linarith
  · exact hf
  · rcases lt_or_eq_of_le hf with hlt | he
    · omega
    · exfalso
      rw [he] at hfl
      have hr : q - (⌊q⌋ : ℚ) = 1/2 := le_antisymm (le_of_not_lt h2) (le_of_not_lt h1)
      rw [he] at hr
      have : q = (B : ℚ) := le_antisymm h hfl
      rw [this] at hr
      norm_num at hr

/-- C7: for every answers list — the empty one included — the scorer's divisor
`max 1 (len answers)` is at least 1 (no division by zero), completeness and
depth lie in `[0,1]`, and the rounded score lies in `[0,100]`. -/
theorem submit_scorer_bounds (answers : List Answer) :
    (1:ℚ) ≤ ((max 1 answers.length : Nat) : ℚ) ∧
    0 ≤ completeness_of answers ∧ completeness_of answers ≤ 1 ∧
    0 ≤ depth_of answers ∧ depth_of answers ≤ 1 ∧
    0 ≤ score_of answers ∧ score_of answers ≤ 100 := by
  have hn : (1:ℚ) ≤ ((max 1 answers.length : Nat) : ℚ) := by
    have := le_max_left 1 answers.length
    exact_mod_cast this
  have hnpos : (0:ℚ) < ((max 1 answers.length : Nat) : ℚ) := lt_of_lt_of_le one_pos hn
  have hlen : ((answers.length : ℚ)) ≤ ((max 1 answers.length : Nat) : ℚ) := by
    exact_mod_cast le_max_right 1 answers.length
  have hc0 : 0 ≤ completeness_of answers := by
    unfold completeness_of
    positivity
  have hc1 : completeness_of answers ≤ 1 := by
    unfold completeness_of
    rw [div_le_one hnpos]
    have hcp : answers.countP answerTruthy ≤ answers.length := List.countP_le_length _
    calc ((answers.countP answerTruthy : ℚ)) ≤ (answers.length : ℚ) := by exact_mod_cast hcp
      _ ≤ _ := hlen
  have hd0 : 0 ≤ depth_of answers := by
    unfold depth_of
    exact div_nonneg (depth_sum_bounds answers).1 (le_of_lt hnpos)
  have hd1 : depth_of answers ≤ 1 := by
    unfold depth_of
    rw [div_le_one hnpos]
    exact le_trans (depth_sum_bounds answers).2 hlen
  refine ⟨hn, hc0, hc1, hd0, hd1, ?_, ?_⟩
  · unfold score_of
    have h0 : 0 ≤ 100 * (4/10 * completeness_of answers + 6/10 * depth_of answers) * 10 := by
      nlinarith
    have := roundHalfToEven_nonneg _ h0
    have hcast : (0:ℚ) ≤ ((roundHalfToEven (100 * (4/10 * completeness_of answers
        + 6/10 * depth_of answers) * 10) : ℤ) : ℚ) := by
      exact_mod_cast this
    linarith
  · unfold score_of
    have hB : 100 * (4/10 * completeness_of answers + 6/10 * depth_of answers) * 10
        ≤ ((1000 : ℤ) : ℚ) := by
      push_cast
      nlinarith
    have := roundHalfToEven_le _ 1000 hB
    have hcast : ((roundHalfToEven (100 * (4/10 * completeness_of answers
        + 6/10 * depth_of answers) * 10) : ℤ) : ℚ) ≤ 1000 := by
      exact_mod_cast this
    linarith

/-- C8: on `answers = [{"text": "kurz"}, {}]` the scorer computes
`completeness = 1/2`, `depth = (min(1, 4/120) + 0)/2 = 1/60`,
`score = round(100*(0.4*(1/2) + 0.6*(1/60)), 1) = 21.0` exactly, and the
feedback is the completeness sentence followed by the depth sentence joined by
a single space. -/
theorem submit_scenario_kurz :
    completeness_of [⟨some "kurz"⟩, ⟨none⟩] = 1/2 ∧
    depth_of [⟨some "kurz"⟩, ⟨none⟩] = 1/60 ∧
    score_of [⟨some "kurz"⟩, ⟨none⟩] = 21 ∧
    feedback_of [⟨some "kurz"⟩, ⟨none⟩] =
      "Beantworte alle Fragen vollständig. Geh tiefer auf Einsichten, Auslöser und Strategien ein." ∧
    feedback_of [⟨some "kurz"⟩, ⟨none⟩] = fb_complete ++ " " ++ fb_depth := by
  have hc : completeness_of [⟨some "kurz"⟩, ⟨none⟩] = 1/2 := by
    have h : ("kurz" != "") = true := by decide
    norm_num [completeness_of, answerTruthy, answerText, List.countP, List.countP.go, h]
  have hd : depth_of [⟨some "kurz"⟩, ⟨none⟩] = 1/60 := by
    have h4 : ("kurz".length) = 4 := by decide
    norm_num [depth_of, answerText, h4]
  have hs : score_of [⟨some "kurz"⟩, ⟨none⟩] = 21 := by
    rw [score_of, hc, hd]
    norm_num [roundHalfToEven]
  have hf : feedback_of [⟨some "kurz"⟩, ⟨none⟩] =
      "Beantworte alle Fragen vollständig. Geh tiefer auf Einsichten, Auslöser und Strategien ein." := by
    rw [feedback_of, hc, hd]
    norm_num
    decide
  exact ⟨hc, hd, hs, hf, hf.trans (by decide)⟩

/-- C9: on the text "Ich habe große Angst und Sorge wegen meines
Alkohol-Problems" the analyzer finds the four negative substrings angst,
sorge, problem, alkohol (`neg_hits = 4`), no positive keyword, sentiment
`"negative"`, `risk_score = min(1, 0.2 + 0.15*4) = 0.8 = 4/5`, and the
recommendations include both the risk ≥ 0.6 counselling string and the
alcohol/drugs documentation string. -/
theorem analyze_scenario_angst :
    neg_hits (pyLower (pyStrip "Ich habe große Angst und Sorge wegen meines Alkohol-Problems")) = 4 ∧
    pos_hits (pyLower (pyStrip "Ich habe große Angst und Sorge wegen meines Alkohol-Problems")) = 0 ∧
    kwIn "angst" (pyLower (pyStrip "Ich habe große Angst und Sorge wegen meines Alkohol-Problems")) = true ∧
    kwIn "sorge" (pyLower (pyStrip "Ich habe große Angst und Sorge wegen meines Alkohol-Problems")) = true ∧
    kwIn "problem" (pyLower (pyStrip "Ich habe große Angst und Sorge wegen meines Alkohol-Problems")) = true ∧
    kwIn "alkohol" (pyLower (pyStrip "Ich habe große Angst und Sorge wegen meines Alkohol-Problems")) = true ∧
    (analyze_text (.error ()) ⟨"Ich habe große Angst und Sorge wegen meines Alkohol-Problems", none⟩).1 =
      .ok ⟨"negative", 4/5, ["angst", "sorge", "problem", "alkohol"],
        [rec_counselling, rec_abstinence, rec_examples], none⟩ := by
  have hneg : neg_hits (pyLower (pyStrip "Ich habe große Angst und Sorge wegen meines Alkohol-Problems")) = 4 := by
    decide
  have hpos : pos_hits (pyLower (pyStrip "Ich habe große Angst und Sorge wegen meines Alkohol-Problems")) = 0 := by
    decide
  have hkt : key_themes_of (pyLower (pyStrip "Ich habe große Angst und Sorge wegen meines Alkohol-Problems")) =
      ["angst", "sorge", "problem", "alkohol"] := by
    decide
  have hrisk : risk_score_of 4 0 = 4/5 := by norm_num [risk_score_of]
  have hsent : sentiment_of 4 0 = "negative" := by decide
  have ha : kwIn "alkohol" (pyLower (pyStrip "Ich habe große Angst und Sorge wegen meines Alkohol-Problems")) = true := by
    decide
  have ht : kwIn "therapie" (pyLower (pyStrip "Ich habe große Angst und Sorge wegen meines Alkohol-Problems")) = false := by
    decide
  have hrecs : recommendations_of (4/5)
      (pyLower (pyStrip "Ich habe große Angst und Sorge wegen meines Alkohol-Problems")) 0 =
      [rec_counselling, rec_abstinence, rec_examples] := by
    unfold recommendations_of
    simp [ha, ht, (by norm_num : (6:ℚ)/10 ≤ 4/5)]
  refine ⟨hneg, hpos, by decide, by decide, by decide, ha, ?_⟩
  rw [analyze_text_ok _ _ (by decide)]
  show Except.ok _ = _
  rw [hneg, hpos, hrisk, hsent, hkt, hrecs]
  rfl

/-- Core of C10: a lower-cased text containing "vorbereitet" also contains
"bereit" (substring matching, not word matching), so at least two positive
keywords hit; both appear, in list order, in the truncated `key_themes`
whenever at most 4 negative keywords hit. -/
theorem vorbereitet_hits (lowered : List Char)
    (hv : kwIn "vorbereitet" lowered = true) :
    kwIn "bereit" lowered = true ∧ 2 ≤ pos_hits lowered ∧
    (neg_hits lowered ≤ 4 →
      List.Sublist ["vorbereitet", "bereit"] (key_themes_of lowered)) := by
  have hb : kwIn "bereit" lowered = true := by
    rw [kwIn, pyContains_substring_iff] at hv ⊢
    exact List.IsInfix.trans ((pyContains_substring_iff _ _).mp (by decide)) hv
  have h2 : 2 ≤ pos_hits lowered := by
    have hsub : List.Sublist ["vorbereitet", "bereit"] positive_keywords :=
      List.sublist_append_left _ _
    have hle := List.Sublist.countP_le (fun k => kwIn k lowered) hsub
    have hc : List.countP (fun k => kwIn k lowered) ["vorbereitet", "bereit"] = 2 := by
      simp [List.countP_cons, List.countP_nil, hv, hb]
    rw [pos_hits]
    omega
  refine ⟨hb, h2, fun h4 => ?_⟩
  have hfil : (negative_keywords ++ positive_keywords).filter (fun k => kwIn k lowered) =
      negative_keywords.filter (fun k => kwIn k lowered) ++
        positive_keywords.filter (fun k => kwIn k lowered) :=
    List.filter_append _ _
  have hposfil : positive_keywords.filter (fun k => kwIn k lowered) =
      "vorbereitet" :: "bereit" ::
        (["besser", "verändert", "therapie", "kontrolle", "motivation"].filter
          (fun k => kwIn k lowered)) := by
    simp [positive_keywords, List.filter_cons, hv, hb]
  have hlenA : (negative_keywords.filter (fun k => kwIn k lowered)).length ≤ 4 := by
    rw [neg_hits] at h4
    rw [List.countP_eq_length_filter] at h4
    exact h4
  rw [key_themes_of, hfil, hposfil]
  rw [List.take_append_eq_append_take]
  rw [List.take_of_length_le (by omega :
    (negative_keywords.filter (fun k => kwIn k lowered)).length ≤ 6)]
  obtain ⟨k, hk⟩ : ∃ k, 6 - (negative_keywords.filter (fun k => kwIn k lowered)).length = k + 2 :=
    ⟨4 - (negative_keywords.filter (fun k => kwIn k lowered)).length, by omega⟩
  rw [hk, List.take_succ_cons, List.take_succ_cons]
  exact (List.nil_sublist _).append (List.sublist_append_left ["vorbereitet", "bereit"] _)

/-- C10 (amended): for every analyzed text whose lower-cased form contains
"vorbereitet", the substring "bereit" also hits, so `pos_hits ≥ 2`; both
keywords additionally appear in `key_themes`, in list order, whenever at most
4 negative keywords hit (with 5 or more negative hits the take-6 truncation
can drop them — see the counterexample). -/
theorem vorbereitet_double_hit (cr : Except Unit String) (payload : AnalysisInput)
    (h : pyStrip payload.text ≠ "")
    (hv : kwIn "vorbereitet" (pyLower (pyStrip payload.text)) = true) :
    kwIn "bereit" (pyLower (pyStrip payload.text)) = true ∧
    2 ≤ pos_hits (pyLower (pyStrip payload.text)) ∧
    ∃ r : AnalyzeResponse, (analyze_text cr payload).1 = .ok r ∧
      (neg_hits (pyLower (pyStrip payload.text)) ≤ 4 →
        List.Sublist ["vorbereitet", "bereit"] r.key_themes) := by
  obtain ⟨hb, h2, hkt⟩ := vorbereitet_hits _ hv
  rw [analyze_text_ok cr payload h]
  exact ⟨hb, h2, _, rfl, hkt⟩

/-- C10, concrete witness at text "Ich bin gut vorbereitet". -/
theorem vorbereitet_double_hit_witness :
    pyStrip "Ich bin gut vorbereitet" ≠ "" ∧
    kwIn "vorbereitet" (pyLower (pyStrip "Ich bin gut vorbereitet")) = true ∧
    (kwIn "bereit" (pyLower (pyStrip "Ich bin gut vorbereitet")) = true ∧
    2 ≤ pos_hits (pyLower (pyStrip "Ich bin gut vorbereitet")) ∧
    ∃ r : AnalyzeResponse, (analyze_text (.ok "id1") ⟨"Ich bin gut vorbereitet", none⟩).1 = .ok r ∧
      (neg_hits (pyLower (pyStrip "Ich bin gut vorbereitet")) ≤ 4 →
        List.Sublist ["vorbereitet", "bereit"] r.key_themes)) :=
  ⟨by decide, by decide,
   vorbereitet_double_hit (.ok "id1") ⟨"Ich bin gut vorbereitet", none⟩ (by decide) (by decide)⟩

/-- C10, counterexample to the claim as stated: on a text whose lower-cased
form contains "vorbereitet" but also hits 6 negative keywords, `key_themes`
is the first 6 hits of the negative list and contains neither "vorbereitet"
nor "bereit". -/
theorem vorbereitet_key_themes_cx :
    kwIn "vorbereitet"
      (pyLower (pyStrip "Angst Sorge Problem Rückfall unsicher Stress vorbereitet")) = true ∧
    (analyze_text (.error ())
        ⟨"Angst Sorge Problem Rückfall unsicher Stress vorbereitet", none⟩).1.toOption.map
      AnalyzeResponse.key_themes =
      some ["angst", "sorge", "problem", "rückfall", "unsicher", "stress"] ∧
    "vorbereitet" ∉ ["angst", "sorge", "problem", "rückfall", "unsicher", "stress"] ∧
    "bereit" ∉ ["angst", "sorge", "problem", "rückfall", "unsicher", "stress"] := by
  refine ⟨by decide, ?_, by decide, by decide⟩
  rw [analyze_text_ok _ _ (by decide)]
  show some (key_themes_of _) = _
  exact congrArg some (by decide)

end Mpu
